import Mathlib

/-!
Shallow embedding of the ThaiFightTalk progression & ranking engine.

Sources embedded here:
* `lib/gamification.ts` — the pure helpers `calculateLevel`, `xpForLevel`,
  `xpProgress`, `calculateStreak`, `checkBadgeCriteria`.
* the initial database migration — the SQL helpers `calculate_level` and
  `award_xp`, and the `user_badges` primary key.
* the RLS migration — the `leaderboard` view (`ROW_NUMBER` over
  `xp DESC, created_at ASC`).
* the leaderboard API route — page ordering by `xp DESC` only, and the
  current-user rank computed as `count(xp > mine) + 1`.
* the api module's lesson-completion and badge-eligibility logic — the
  two-step xp/level persistence and the check-then-plain-insert badge loop.

JavaScript numbers are modelled as exact integers (`ℤ`), the one float
division (`xpProgress`) as an exact rational (`ℚ`).  For an integer
`x ≥ 0`, `⌊√(x / 100)⌋` over the reals equals `Nat.sqrt (x / 100)` with
natural division, which is how the level formula is rendered below.
-/

/-- TS `calculateLevel` (lib/gamification.ts lines 16-19):
`if (xp < 0) return 1; return Math.floor(Math.sqrt(xp / 100)) + 1`. -/
def calculateLevel (xp : ℤ) : ℤ :=
  if xp < 0 then 1 else (Nat.sqrt (xp.toNat / 100) : ℤ) + 1

/-- TS `xpForLevel` (lib/gamification.ts lines 43-46):
`if (level <= 1) return 0; return (level - 1) ** 2 * 100`. -/
def xpForLevel (level : ℤ) : ℤ :=
  if level ≤ 1 then 0 else (level - 1) ^ 2 * 100

/-- TS `xpProgress` (lib/gamification.ts lines 56-66): progress percentage
towards the next level; returns 100 on a zero denominator, otherwise clamps
`(xpInCurrentLevel / xpNeededForLevel) * 100` into `[0, 100]` via
`Math.max(0, Math.min(progress, 100))`. -/
def xpProgress (currentXP currentLevel : ℤ) : ℚ :=
  let currentLevelXP := xpForLevel currentLevel
  let nextLevelXP := xpForLevel (currentLevel + 1)
  let xpInCurrentLevel := currentXP - currentLevelXP
  let xpNeededForLevel := nextLevelXP - currentLevelXP
  if xpNeededForLevel = 0 then 100
  else max 0 (min ((xpInCurrentLevel : ℚ) / (xpNeededForLevel : ℚ) * 100) 100)

/-- TS `calculateStreak` (lib/gamification.ts lines 85-105), on the integral
number of milliseconds elapsed since the stored `lastActivity`
(`hoursSince < 24` is exactly `msSince < 24 * 3600000`, and likewise for 48):
returns the pair `(streak, broken)`. -/
def calculateStreak (msSince : ℤ) (currentStreak : ℕ) : ℕ × Bool :=
  if msSince < 24 * 3600000 then (currentStreak, false)
  else if msSince < 48 * 3600000 then (currentStreak + 1, false)
  else (1, true)

/-- TS `checkBadgeCriteria` (lib/gamification.ts lines 110-130): a `switch`
on the criterion type string; the six grouped cases and the separate
`streak_days` case all return `userValue >= criteriaValue`; the `default`
case returns `false`. -/
def checkBadgeCriteria (criteriaType : String) (criteriaValue userValue : ℤ) : Bool :=
  if criteriaType = "xp_threshold" ∨ criteriaType = "level_threshold" ∨
     criteriaType = "lessons_completed" ∨ criteriaType = "perfect_scores" ∨
     criteriaType = "camps_completed" ∨ criteriaType = "sparring_sessions" then
    decide (criteriaValue ≤ userValue)
  else if criteriaType = "streak_days" then
    decide (criteriaValue ≤ userValue)
  else
    false

/-- The criterion type strings recognized by `checkBadgeCriteria`
(the non-default cases of its `switch`). -/
def recognizedCriteriaTypes : List String :=
  ["xp_threshold", "level_threshold", "lessons_completed", "perfect_scores",
   "camps_completed", "sparring_sessions", "streak_days"]

/-- A `users` table row restricted to the columns the progression ledger
mutates: `xp` and `current_level`. -/
structure UserRec where
  xp : ℤ
  current_level : ℤ
deriving Repr, DecidableEq

/-- SQL `calculate_level(xp INTEGER)` (initial migration):
`FLOOR(SQRT(xp / 100.0)) + 1`.  Postgres `SQRT` raises an error on a
negative argument, modelled as `none`. -/
def calculate_level (xp : ℤ) : Option ℤ :=
  if xp < 0 then none else some ((Nat.sqrt (xp.toNat / 100) : ℤ) + 1)

/-- The row returned by SQL `award_xp`. -/
structure AwardResult where
  new_xp : ℤ
  new_level : ℤ
  leveled_up : Bool
deriving Repr, DecidableEq

/-- SQL `award_xp(p_user_id, p_xp_amount)` acting on the selected user row:
reads `xp, current_level`, computes `v_new_xp := v_old_xp + p_xp_amount`
and `v_new_level := calculate_level(v_new_xp)` (which raises on a negative
argument), then performs the single
`UPDATE users SET xp = v_new_xp, current_level = v_new_level` and returns
`(new_xp, new_level, leveled_up)`.  There is no guard on a negative
`p_xp_amount`. -/
def award_xp (u : UserRec) (p_xp_amount : ℤ) : Option (UserRec × AwardResult) :=
  let v_new_xp := u.xp + p_xp_amount
  match calculate_level v_new_xp with
  | none => none
  | some v_new_level =>
      some ({ xp := v_new_xp, current_level := v_new_level },
            { new_xp := v_new_xp, new_level := v_new_level,
              leveled_up := decide (u.current_level < v_new_level) })

/-- The api module's `POST /lessons/:lessonId/complete` logic, as the
sequence of persisted `users` states it produces: the first `UPDATE` writes
only `xp` (and `last_activity`); then `newLevel = calculateLevel(user.xp)`
and `leveledUp = newLevel > user.current_level` are computed, and only when
`leveledUp` does a second, separate `UPDATE` write `current_level`. -/
def apiCompleteStates (u : UserRec) (xpEarned : ℤ) : List UserRec :=
  let s1 : UserRec := { xp := u.xp + xpEarned, current_level := u.current_level }
  let newLevel := calculateLevel s1.xp
  if u.current_level < newLevel then
    [u, s1, { xp := s1.xp, current_level := newLevel }]
  else [u, s1]

/-- Invariant I1 of the spec: the stored level is the level function of the
stored points. -/
def levelInvariant (u : UserRec) : Prop :=
  u.current_level = calculateLevel u.xp

/-- A `users` row as seen by the ranking components: id, total xp, and the
account-creation instant. -/
structure DbUser where
  id : ℕ
  xp : ℤ
  created_at : ℤ
deriving Repr, DecidableEq

/-- The ordering key of the SQL `leaderboard` view:
`ORDER BY u.xp DESC, u.created_at ASC`. -/
def lbBefore (a b : DbUser) : Bool :=
  decide (b.xp < a.xp) || (decide (a.xp = b.xp) && decide (a.created_at ≤ b.created_at))

/-- Insert into a list sorted by `lbBefore`. -/
def lbInsert (a : DbUser) : List DbUser → List DbUser
  | [] => [a]
  | b :: rest => if lbBefore a b then a :: b :: rest else b :: lbInsert a rest

/-- Sort the `users` rows by the view's `(xp DESC, created_at ASC)` key. -/
def lbSort : List DbUser → List DbUser
  | [] => []
  | a :: rest => lbInsert a (lbSort rest)

/-- The SQL `leaderboard` view: rows in `(xp DESC, created_at ASC)` order
with `ROW_NUMBER()` as `rank`, i.e. a user's rank is its 1-based position
in the fully ordered sequence. -/
def leaderboardView (users : List DbUser) : List (ℕ × DbUser) :=
  (lbSort users).enum.map (fun p => (p.1 + 1, p.2))

/-- A user's rank according to the `leaderboard` view: 1-based position in
the `(xp DESC, created_at ASC)` order. -/
def viewRank (users : List DbUser) (u : DbUser) : ℕ :=
  (lbSort users).indexOf u + 1

/-- The leaderboard API route's current-user rank: a count of users with
strictly greater xp, plus one (`.gt('xp', myXp)` then `count + 1`). -/
def routeRank (users : List DbUser) (me : DbUser) : ℕ :=
  (users.filter (fun v => decide (me.xp < v.xp))).length + 1

/-- The `user_badges` table has `PRIMARY KEY (user_id, badge_id)`: an `INSERT` of an
already-present pair violates the key and stores nothing (the client
receives an error object, which the caller discards); otherwise the row is
appended.  Returns whether a row was stored, and the resulting table. -/
def dbInsertUserBadge (table : List (ℕ × ℕ)) (p : ℕ × ℕ) :
    Bool × List (ℕ × ℕ) :=
  if p ∈ table then (false, table) else (true, table ++ [p])

/-- The api module's `checkBadgeEligibility(userId)`: the earned set is read
once up front (`user.user_badges`, the `snapshot`); then, for each catalog
badge not in the snapshot whose criterion holds (`eligible` abstracts
`evaluateCriteria(badge.criteria, user)` over fixed post-update stats), a
plain insert into `user_badges` is executed — its result discarded — and
the badge is reported as newly earned.  Returns the reported badges in
catalog order together with the final table. -/
def checkBadgeEligibility (userId : ℕ) (snapshot : List ℕ) (eligible : ℕ → Bool) :
    List ℕ → List (ℕ × ℕ) → List ℕ × List (ℕ × ℕ)
  | [], table => ([], table)
  | b :: rest, table =>
    if b ∈ snapshot then checkBadgeEligibility userId snapshot eligible rest table
    else if eligible b then
      let t1 := (dbInsertUserBadge table (userId, b)).2
      let r := checkBadgeEligibility userId snapshot eligible rest t1
      (b :: r.1, r.2)
    else checkBadgeEligibility userId snapshot eligible rest table

/-- One in-flight `award_xp` call: its amount, the xp its `SELECT` captured
(when it has run), and whether its `UPDATE` has run. -/
structure AwardCall where
  amount : ℤ
  readVal : Option ℤ
  done : Bool
deriving Repr, DecidableEq

/-- One scheduler step of an in-flight call against the shared `users.xp`
cell: the first activation runs `SELECT xp INTO v_old_xp` (captures the
current shared value); the second runs
`UPDATE users SET xp = v_old_xp + amount`, overwriting the shared value
from the captured one — the lost-update hazard of the unlocked
read-then-update in `award_xp`. -/
def stepAwardCall (shared : ℤ) (c : AwardCall) : ℤ × AwardCall :=
  match c.readVal, c.done with
  | none, _ => (shared, { c with readVal := some shared })
  | some v, false => (v + c.amount, { c with done := true })
  | some _, true => (shared, c)

/-- Run a schedule (a list of call indices; each occurrence advances that
call by one step) over the shared xp cell. -/
def runAwardSched : List ℕ → ℤ → List AwardCall → ℤ
  | [], shared, _ => shared
  | i :: rest, shared, cs =>
    match cs[i]? with
    | none => runAwardSched rest shared cs
    | some c =>
      let sc := stepAwardCall shared c
      runAwardSched rest sc.1 (cs.set i sc.2)

/-- Final shared xp after running concurrent `award_xp` calls with the given
amounts from initial xp `x0` under the given schedule. -/
def runAwardCalls (amounts : List ℤ) (x0 : ℤ) (sched : List ℕ) : ℤ :=
  runAwardSched sched x0
    (amounts.map fun a => { amount := a, readVal := none, done := false })

/-- Account A of the spec's ranking scenario: 500 points, created first. -/
def rankUserA : DbUser := { id := 0, xp := 500, created_at := 1 }

/-- Account B of the spec's ranking scenario: 500 points, created second. -/
def rankUserB : DbUser := { id := 1, xp := 500, created_at := 2 }

/-- Account C of the spec's ranking scenario: 700 points. -/
def rankUserC : DbUser := { id := 2, xp := 700, created_at := 3 }

/-- The `users` rows of the spec's ranking scenario, in creation order. -/
def rankDemoUsers : List DbUser := [rankUserA, rankUserB, rankUserC]

/-- Pin down a concrete value of `Nat.sqrt` (whose Newton-iteration
definition does not reduce in the kernel) from the two bounding
inequalities. -/
theorem sqrt_val (m n : ℕ) (h1 : m * m ≤ n) (h2 : n < (m + 1) * (m + 1)) :
    Nat.sqrt n = m :=
  Nat.le_antisymm (Nat.le_of_lt_succ (Nat.sqrt_lt.2 h2)) (Nat.le_sqrt.2 h1)

theorem sqrt_one_val : Nat.sqrt 1 = 1 := sqrt_val 1 1 (by decide) (by decide)

theorem sqrt_four_val : Nat.sqrt 4 = 2 := sqrt_val 2 4 (by decide) (by decide)

theorem sqrt_five_val : Nat.sqrt 5 = 2 := sqrt_val 2 5 (by decide) (by decide)

theorem sqrt_ten_val : Nat.sqrt 10 = 3 := sqrt_val 3 10 (by decide) (by decide)

/-- Evaluate `calculateLevel` at a concrete non-negative input, given the
reduced division and square root. -/
theorem calculateLevel_eval (xp : ℤ) (m k : ℕ) (h0 : ¬ xp < 0)
    (hk : xp.toNat / 100 = k) (hs : Nat.sqrt k = m) :
    calculateLevel xp = (m : ℤ) + 1 := by
  rw [calculateLevel, if_neg h0, hk, hs]

/-- Evaluate the SQL `calculate_level` at a concrete non-negative input,
given the reduced division and square root. -/
theorem calculate_level_eval (xp : ℤ) (m k : ℕ) (h0 : ¬ xp < 0)
    (hk : xp.toNat / 100 = k) (hs : Nat.sqrt k = m) :
    calculate_level xp = some ((m : ℤ) + 1) := by
  rw [calculate_level, if_neg h0, hk, hs]

example : calculateLevel 0 = 1 := by
  rw [calculateLevel_eval 0 0 0 (by decide) (by decide) Nat.sqrt_zero]; rfl

example : calculateLevel 100 = 2 := by
  rw [calculateLevel_eval 100 1 1 (by decide) (by decide) sqrt_one_val]; rfl

example : calculateLevel 500 = 3 := by
  rw [calculateLevel_eval 500 2 5 (by decide) (by decide) sqrt_five_val]; rfl

example : calculateLevel 1000 = 4 := by
  rw [calculateLevel_eval 1000 3 10 (by decide) (by decide) sqrt_ten_val]; rfl

example : xpForLevel 1 = 0 := by decide

example : xpForLevel 2 = 100 := by decide

example : xpForLevel 3 = 400 := by decide

example : calculateStreak (10 * 3600000) 4 = (4, false) := by decide

example : calculateStreak (30 * 3600000) 4 = (5, false) := by decide

example : calculateStreak (50 * 3600000) 4 = (1, true) := by decide

/-- Claim C3 counterexample: at 30 elapsed hours the resolver increments the
streak to `currentStreak + 1` but returns `false` as its boolean flag
(`broken`), whereas the claim states the flag (`changed`) is `true` there. -/
theorem calculateStreak_thirty_hours_flag :
    calculateStreak (30 * 3600000) 5 = (6, false) := by decide

/-- Claim C3 (amended): evaluated on elapsed hours since the stored last
activity, the resolver returns, for `h = 10`, the streak unchanged with
`broken = false`; for `h = 30`, `currentStreak + 1` with `broken = false`
(the flag signals a reset, not a change); for `h = 50`, a reset to `1` with
`broken = true`.  The resolver takes `lastActivity` as a required argument
and has no absent-`lastActivity` branch. -/
theorem calculateStreak_amended (s : ℕ) :
    calculateStreak (10 * 3600000) s = (s, false) ∧
    calculateStreak (30 * 3600000) s = (s + 1, false) ∧
    calculateStreak (50 * 3600000) s = (1, true) := by
  refine ⟨?_, ?_, ?_⟩ <;> simp [calculateStreak]

/-- Claim C7 counterexample: the level function, given the negative input
`-50`, returns the perfectly normal level value `1` instead of rejecting. -/
theorem calculateLevel_negative_counterexample : calculateLevel (-50) = 1 := by
  decide

/-- Claim C7 (amended): for every negative points input, the TS
`calculateLevel` silently clamps, returning the normal level value `1`,
while the SQL `calculate_level` does reject (raises, since `SQRT` of a
negative number errors). -/
theorem calculateLevel_negative_clamps (xp : ℤ) (h : xp < 0) :
    calculateLevel xp = 1 ∧ calculate_level xp = none := by
  rw [calculateLevel, if_pos h, calculate_level, if_pos h]
  exact ⟨rfl, rfl⟩

/-- Witness for the amended claim C7 at the concrete input `-7`. -/
theorem calculateLevel_negative_clamps_witness :
    calculateLevel (-7) = 1 ∧ calculate_level (-7) = none :=
  calculateLevel_negative_clamps (-7) (by decide)

/-- Claim C8: with two concurrent `award_xp` calls of 10 points each on an
account at 0 xp, the interleaving read-read-write-write of the unlocked
read-then-update yields a final total of 10 — one update is lost — while
both sequential orders yield 20, the sum of the awards.  The outcome of the
interleaving therefore matches no sequential application of the calls, and
the final total is not the initial total plus the sum of the awards. -/
theorem award_xp_lost_update :
    runAwardCalls [10, 10] 0 [0, 1, 0, 1] = 10 ∧
    runAwardCalls [10, 10] 0 [0, 0, 1, 1] = 20 ∧
    runAwardCalls [10, 10] 0 [1, 1, 0, 0] = 20 ∧
    runAwardCalls [10, 10] 0 [0, 1, 0, 1] ≠ 0 + 10 + 10 := by decide

/-- Claim C1: on the spec's tie scenario — A (500 xp, created first),
B (500 xp, created second), C (700 xp) — the SQL `leaderboard` view orders
the rows C, A, B and assigns ranks 1, 2, 3, exactly as the claim states;
but the leaderboard API route computes the current-user rank as
`count(xp > mine) + 1`, which gives B rank 2, not its position 3 in the
fully ordered sequence, so `GetRank` disagrees with the ordered page. -/
theorem ranking_tie_divergence :
    lbSort rankDemoUsers = [rankUserC, rankUserA, rankUserB] ∧
    leaderboardView rankDemoUsers =
      [(1, rankUserC), (2, rankUserA), (3, rankUserB)] ∧
    viewRank rankDemoUsers rankUserA = 2 ∧
    viewRank rankDemoUsers rankUserB = 3 ∧
    viewRank rankDemoUsers rankUserC = 1 ∧
    routeRank rankDemoUsers rankUserA = 2 ∧
    routeRank rankDemoUsers rankUserC = 1 ∧
    routeRank rankDemoUsers rankUserB = 2 ∧
    routeRank rankDemoUsers rankUserB ≠ viewRank rankDemoUsers rankUserB := by
  decide

/-- Claim C2: on an account at 50 xp, level 1, awarded 100 points, the SQL
`award_xp` does satisfy the arithmetic contract and persists `(150, 2)` in a
single write, which satisfies `level == LevelOf(points)`; but the api
module's lesson-completion flow persists the same award through two separate
writes, and its intermediate persisted state `(xp = 150, level = 1)` — xp
updated, level not — violates the invariant, so the invariant does not hold
at every observation point. -/
theorem apiComplete_two_writes :
    award_xp { xp := 50, current_level := 1 } 100 =
      some ({ xp := 150, current_level := 2 },
            { new_xp := 150, new_level := 2, leveled_up := true }) ∧
    levelInvariant { xp := 150, current_level := 2 } ∧
    apiCompleteStates { xp := 50, current_level := 1 } 100 =
      [{ xp := 50, current_level := 1 }, { xp := 150, current_level := 1 },
       { xp := 150, current_level := 2 }] ∧
    ¬ levelInvariant { xp := 150, current_level := 1 } := by
  have hc : calculate_level 150 = some 2 := by
    rw [calculate_level_eval 150 1 1 (by decide) (by decide) sqrt_one_val]; rfl
  have hl : calculateLevel 150 = 2 := by
    rw [calculateLevel_eval 150 1 1 (by decide) (by decide) sqrt_one_val]; rfl
  refine ⟨?_, ?_, ?_, ?_⟩
  · rw [award_xp]; norm_num [hc]
  · rw [levelInvariant, hl]
  · rw [apiCompleteStates]; norm_num [hl]
  · rw [levelInvariant, hl]; norm_num

/-- Claim C4: the level function satisfies the algebraic contract:
`LevelOf(0) = 1`; `LevelOf` is non-decreasing in points; `PointsRequiredFor`
(`xpForLevel`) is strictly increasing at every producible level `L ≥ 1`;
and the round-trip `LevelOf(PointsRequiredFor(L)) = L` holds for every
producible level `L ≥ 1`. -/
theorem levelFunction_contract (p1 p2 L : ℤ) (hp : p1 ≤ p2) (hL : 1 ≤ L) :
    calculateLevel 0 = 1 ∧
    calculateLevel p1 ≤ calculateLevel p2 ∧
    xpForLevel L < xpForLevel (L + 1) ∧
    calculateLevel (xpForLevel L) = L := by
  refine ⟨?_, ?_, ?_, ?_⟩
  · rw [calculateLevel_eval 0 0 0 (by decide) (by decide) Nat.sqrt_zero]; rfl
  · by_cases h1 : p1 < 0
    · rw [calculateLevel, if_pos h1, calculateLevel]
      split
      · exact le_refl 1
      · omega
    · have h2 : ¬ p2 < 0 := by omega
      rw [calculateLevel, if_neg h1, calculateLevel, if_neg h2]
      have hmono : Nat.sqrt (p1.toNat / 100) ≤ Nat.sqrt (p2.toNat / 100) :=
        Nat.sqrt_le_sqrt (Nat.div_le_div_right (Int.toNat_le_toNat hp))
      omega
  · rcases lt_or_eq_of_le hL with h2 | h2
    · have ha : ¬ L ≤ 1 := by omega
      have hb : ¬ L + 1 ≤ 1 := by omega
      rw [xpForLevel, xpForLevel, if_neg ha, if_neg hb]
      nlinarith
    · rw [← h2]; decide
  · rcases lt_or_eq_of_le hL with h2 | h2
    · obtain ⟨n, hn⟩ : ∃ n : ℕ, L - 1 = (n : ℤ) :=
        Int.eq_ofNat_of_zero_le (by omega)
      have hxp : xpForLevel L = ((n ^ 2 * 100 : ℕ) : ℤ) := by
        rw [xpForLevel, if_neg (by omega), hn]
        push_cast
        ring
      rw [hxp, calculateLevel_eval _ n (n ^ 2)
        (not_lt.2 (Int.natCast_nonneg _))
        (by rw [Int.toNat_natCast]; exact Nat.mul_div_cancel _ (by norm_num))
        (sqrt_val n (n ^ 2) (by nlinarith) (by nlinarith))]
      omega
    · rw [← h2]
      rw [show xpForLevel 1 = 0 from by decide,
        calculateLevel_eval 0 0 0 (by decide) (by decide) Nat.sqrt_zero]
      rfl

/-- Witness for claim C4 at the concrete inputs `p1 = 100 ≤ p2 = 500`,
`L = 5`. -/
theorem levelFunction_contract_witness :
    calculateLevel 0 = 1 ∧ calculateLevel 100 ≤ calculateLevel 500 ∧
    xpForLevel 5 < xpForLevel 6 ∧ calculateLevel (xpForLevel 5) = 5 :=
  levelFunction_contract 100 500 5 (by norm_num) (by norm_num)

/-- Claim C10: the badge criterion evaluator is closed over the fixed set of
recognized criterion types: it returns `true` exactly when the type string
is recognized and the user's stat value is at least the threshold; for any
unrecognized type it returns `false` regardless of the values. -/
theorem checkBadgeCriteria_closed (t : String) (v u : ℤ) :
    checkBadgeCriteria t v u = true ↔ (t ∈ recognizedCriteriaTypes ∧ v ≤ u) := by
  rw [checkBadgeCriteria]
  split_ifs with h1 h2
  · simp only [decide_eq_true_eq]
    constructor
    · intro hvu
      refine ⟨?_, hvu⟩
      rcases h1 with h | h | h | h | h | h <;> simp [recognizedCriteriaTypes, h]
    · exact fun h => h.2
  · simp only [decide_eq_true_eq]
    constructor
    · intro hvu
      exact ⟨by simp [recognizedCriteriaTypes, h2], hvu⟩
    · exact fun h => h.2
  · constructor
    · intro hf
      cases hf
    · rintro ⟨hm, -⟩
      simp only [recognizedCriteriaTypes, List.mem_cons, List.mem_singleton,
        List.not_mem_nil, or_false] at hm
      tauto

/-- The level thresholds are non-decreasing from one level to the next, so
the progress denominator `xpForLevel (l+1) - xpForLevel l` is never
negative. -/
theorem xpForLevel_le_succ (l : ℤ) : xpForLevel l ≤ xpForLevel (l + 1) := by
  rw [xpForLevel, xpForLevel]
  split_ifs with h1 h2 h2
  · exact le_refl 0
  · positivity
  · exfalso; omega
  · nlinarith

/-- Claim C9: `xpProgress` is total and always lands in `[0, 100]`: the
zero-denominator case returns `100`, an input at or past the next-level
threshold is clamped to `100`, and (with a nonzero denominator) an input at
or below the current-level threshold is clamped to `0`. -/
theorem xpProgress_total (x l : ℤ) :
    0 ≤ xpProgress x l ∧ xpProgress x l ≤ 100 ∧
    (xpForLevel (l + 1) - xpForLevel l = 0 → xpProgress x l = 100) ∧
    (xpForLevel (l + 1) ≤ x → xpProgress x l = 100) ∧
    (xpForLevel (l + 1) - xpForLevel l ≠ 0 → x ≤ xpForLevel l →
      xpProgress x l = 0) := by
  have hden : 0 ≤ xpForLevel (l + 1) - xpForLevel l :=
    sub_nonneg.2 (xpForLevel_le_succ l)
  simp only [xpProgress]
  split_ifs with hd
  · refine ⟨by norm_num, le_refl 100, fun _ => rfl, fun _ => rfl, fun hne _ => ?_⟩
    exact absurd hd hne
  · have hdQ : (0 : ℚ) < ((xpForLevel (l + 1) - xpForLevel l : ℤ) : ℚ) := by
      have : 0 < xpForLevel (l + 1) - xpForLevel l := lt_of_le_of_ne hden (Ne.symm hd)
      exact_mod_cast this
    refine ⟨le_max_left 0 _, max_le (by norm_num) (min_le_right _ 100),
      fun h => absurd h hd, fun hx => ?_, fun _ hx => ?_⟩
    · have hnum : ((xpForLevel (l + 1) - xpForLevel l : ℤ) : ℚ) ≤
          ((x - xpForLevel l : ℤ) : ℚ) := by
        have : xpForLevel (l + 1) - xpForLevel l ≤ x - xpForLevel l := by omega
        exact_mod_cast this
      have h1 : (1 : ℚ) ≤ ((x - xpForLevel l : ℤ) : ℚ) /
          ((xpForLevel (l + 1) - xpForLevel l : ℤ) : ℚ) :=
        (one_le_div hdQ).2 hnum
      have h100 : (100 : ℚ) ≤ ((x - xpForLevel l : ℤ) : ℚ) /
          ((xpForLevel (l + 1) - xpForLevel l : ℤ) : ℚ) * 100 := by
        nlinarith
      rw [min_eq_right h100, max_eq_right (by norm_num : (0 : ℚ) ≤ 100)]
    · have hnum : ((x - xpForLevel l : ℤ) : ℚ) ≤ 0 := by
        have : x - xpForLevel l ≤ 0 := by omega
        exact_mod_cast this
      have hq : ((x - xpForLevel l : ℤ) : ℚ) /
          ((xpForLevel (l + 1) - xpForLevel l : ℤ) : ℚ) ≤ 0 :=
        div_nonpos_iff.2 (Or.inr ⟨hnum, le_of_lt hdQ⟩)
      have hq100 : ((x - xpForLevel l : ℤ) : ℚ) /
          ((xpForLevel (l + 1) - xpForLevel l : ℤ) : ℚ) * 100 ≤ 0 := by
        nlinarith
      rw [max_eq_left (le_trans (min_le_left _ 100) hq100)]

/-- Witness for claim C9 at the concrete inputs `(50, 1)` (in-range) and
`(200, 1)` (past the next-level threshold `xpForLevel 2 = 100`, clamped to
100). -/
theorem xpProgress_total_witness :
    0 ≤ xpProgress 50 1 ∧ xpProgress 50 1 ≤ 100 ∧ xpProgress 200 1 = 100 :=
  ⟨(xpProgress_total 50 1).1, (xpProgress_total 50 1).2.1,
   (xpProgress_total 200 1).2.2.2.1 (by decide)⟩

/-- A primary-key insert into `user_badges` preserves the absence of
duplicate rows. -/
theorem dbInsertUserBadge_nodup {t : List (ℕ × ℕ)} (h : t.Nodup) (p : ℕ × ℕ) :
    ((dbInsertUserBadge t p).2).Nodup := by
  rw [dbInsertUserBadge]
  split_ifs with hm
  · exact h
  · simp [List.nodup_append, h, hm]

/-- Claim C5: starting from any `user_badges` table with no duplicate
(account, badge) rows, a run of `checkBadgeEligibility` — including one
whose earned-set snapshot is stale because a concurrent evaluation already
inserted some award — leaves the table free of duplicates (the primary key
makes the at-most-one invariant hold), and every catalog badge that is not
in the snapshot and whose criterion holds is still reported as newly
earned, i.e. the attempted insert is treated as success even when the row
already exists, and no duplicate is created. -/
theorem badge_award_unique (userId : ℕ) (snapshot : List ℕ)
    (eligible : ℕ → Bool) (catalog : List ℕ) (table : List (ℕ × ℕ))
    (h : table.Nodup) :
    (checkBadgeEligibility userId snapshot eligible catalog table).2.Nodup ∧
    ∀ b, b ∈ catalog → b ∉ snapshot → eligible b = true →
      b ∈ (checkBadgeEligibility userId snapshot eligible catalog table).1 := by
  induction catalog generalizing table with
  | nil =>
    rw [checkBadgeEligibility]
    exact ⟨h, by simp⟩
  | cons b rest ih =>
    rw [checkBadgeEligibility]
    split_ifs with hs he
    · obtain ⟨H1, H2⟩ := ih table h
      refine ⟨H1, ?_⟩
      intro c hc hcs hce
      rcases List.mem_cons.1 hc with hcb | hcr
      · exact absurd (hcb ▸ hs) hcs
      · exact H2 c hcr hcs hce
    · obtain ⟨H1, H2⟩ := ih _ (dbInsertUserBadge_nodup h (userId, b))
      refine ⟨H1, ?_⟩
      intro c hc hcs hce
      rcases List.mem_cons.1 hc with hcb | hcr
      · exact hcb ▸ List.mem_cons_self _ _
      · exact List.mem_cons_of_mem _ (H2 c hcr hcs hce)
    · obtain ⟨H1, H2⟩ := ih table h
      refine ⟨H1, ?_⟩
      intro c hc hcs hce
      rcases List.mem_cons.1 hc with hcb | hcr
      · exact absurd (hcb ▸ hce) (by simpa using he)
      · exact H2 c hcr hcs hce

/-- Witness for claim C5: account 0 already holds badge 5 in the table (a
concurrent evaluation won the race) while the snapshot is stale and empty;
the run keeps the table duplicate-free and still reports badge 5. -/
theorem badge_award_unique_witness :
    (checkBadgeEligibility 0 [] (fun _ => true) [5] [(0, 5)]).2.Nodup ∧
    5 ∈ (checkBadgeEligibility 0 [] (fun _ => true) [5] [(0, 5)]).1 :=
  ⟨(badge_award_unique 0 [] (fun _ => true) [5] [(0, 5)] (by decide)).1,
   (badge_award_unique 0 [] (fun _ => true) [5] [(0, 5)] (by decide)).2
     5 (by decide) (by decide) rfl⟩

/-- Claim C6: `award_xp` has no negative-amount guard — awarding `-100`
points to an account holding 500 xp (level 3) succeeds, performs the write,
and leaves the account at 400 xp: the call is not rejected and the point
total decreases. -/
theorem award_xp_negative_no_reject :
    award_xp { xp := 500, current_level := 3 } (-100) =
      some ({ xp := 400, current_level := 3 },
            { new_xp := 400, new_level := 3, leveled_up := false }) ∧
    (400 : ℤ) < 500 := by
  have h4 : calculate_level 400 = some 3 := by
    rw [calculate_level_eval 400 2 4 (by decide) (by decide) sqrt_four_val]; rfl
  refine ⟨?_, by norm_num⟩
  rw [award_xp]
  norm_num [h4]
